import Mathlib

/-!
Verification of the issue-processing core of `github-issue-automator`.

The development shallowly embeds the Python modules `src/issue_tracker.py`,
`src/main.py`, `src/repo_manager.py` and `src/claude_executor.py` as Lean
definitions and proves (or refutes) the specified properties about them.
Wall-clock time (`time.time()`) is modelled as a natural number of seconds;
the JSON persistence layer (`_save_processed_issues` / `_load_processed_issues`)
only mirrors in-memory state to disk and is not modelled.
-/

namespace Automator

/-- A failure record stored in `IssueTracker.failed_attempts`
(`issue_tracker.py`, `mark_failed`): the Python dict
`\x7b'count': _, 'last_attempt': _, 'next_retry': _, 'backoff_minutes': _\x7d`.
`backoff_minutes` is recomputed from `count` on every write, so we keep the
three independent fields. -/
structure FailureInfo where
  count : Nat
  last_attempt : Nat
  next_retry : Nat
deriving DecidableEq, Repr

/-- In-memory state of `IssueTracker` (`issue_tracker.py`, lines 13-18):
a set of processed issue numbers and a map from issue number to failure
record. The Python dict is modelled as a function to `Option`. -/
structure IssueTracker where
  processed_issues : Finset Nat
  failed_attempts : Nat → Option FailureInfo

/-- A freshly constructed tracker with no storage file
(`_load_processed_issues`, "starting fresh" branch). -/
def emptyTracker : IssueTracker :=
  { processed_issues := ∅, failed_attempts := fun _ => none }

/-- The backoff computation of `mark_failed` (`issue_tracker.py`, line 101):
`backoff_minutes = min(5 * (3 ** (failure_count - 1)), 1440)`. -/
def backoffMinutes (failure_count : Nat) : Nat :=
  min (5 * 3 ^ (failure_count - 1)) 1440

/-- Embeds `IssueTracker.is_processed` (`issue_tracker.py`, lines 56-58). -/
def IssueTracker.is_processed (t : IssueTracker) (issue_number : Nat) : Bool :=
  issue_number ∈ t.processed_issues

/-- Embeds `IssueTracker.should_retry_issue` (`issue_tracker.py`, lines 60-75),
with `time.time()` passed explicitly as `current_time`. The Python code
reads `next_retry` with default `0`; records written by `mark_failed`
always carry the field, so the model stores it directly. -/
def IssueTracker.should_retry_issue (t : IssueTracker) (current_time : Nat)
    (issue_number : Nat) : Bool :=
  if issue_number ∈ t.processed_issues then
    false
  else
    match t.failed_attempts issue_number with
    | none => true
    | some failure_info => decide (current_time ≥ failure_info.next_retry)

/-- Embeds `IssueTracker.mark_processed` (`issue_tracker.py`, lines 77-85): when the
issue is not yet in the processed set, add it and delete any failure record;
when it already is, the whole body is skipped (the guard on line 79 encloses
the deletion too). -/
def IssueTracker.mark_processed (t : IssueTracker) (issue_number : Nat) :
    IssueTracker :=
  if issue_number ∈ t.processed_issues then
    t
  else
    { processed_issues := insert issue_number t.processed_issues,
      failed_attempts := fun i =>
        if i = issue_number then none else t.failed_attempts i }

/-- Embeds `IssueTracker.mark_failed` (`issue_tracker.py`, lines 87-111), with
`time.time()` passed explicitly: increment (or initialise) the failure
count, recompute the backoff and set `next_retry = now + backoff * 60`
seconds. The processed set is not consulted or changed. -/
def IssueTracker.mark_failed (t : IssueTracker) (current_time : Nat)
    (issue_number : Nat) : IssueTracker :=
  let failure_count :=
    match t.failed_attempts issue_number with
    | some info => info.count + 1
    | none => 1
  let backoff := backoffMinutes failure_count
  { t with
    failed_attempts := fun i =>
      if i = issue_number then
        some { count := failure_count, last_attempt := current_time,
               next_retry := current_time + backoff * 60 }
      else t.failed_attempts i }

/-- Embeds `IssueTracker.get_processed_count` (`issue_tracker.py`, lines 113-115). -/
def IssueTracker.get_processed_count (t : IssueTracker) : Nat :=
  t.processed_issues.card

/-- Embeds `IssueTracker.cleanup_old_issues` (`issue_tracker.py`, lines 117-124):
when the processed set has more than `keep_last` entries, keep the first
`keep_last` of the descending sort (`sorted(..., reverse=True)[:keep_last]`,
here: ascending sort, reversed, truncated). -/
def IssueTracker.cleanup_old_issues (t : IssueTracker) (keep_last : Nat) :
    IssueTracker :=
  if t.processed_issues.card > keep_last then
    { t with processed_issues :=
        (((t.processed_issues.sort (· ≤ ·)).reverse.take keep_last).toFinset) }
  else t

/-- Fold applying `mark_failed issue_number` at each time in the list, in
order: an arbitrary later sequence of failure recordings for one issue. -/
def applyMarkFailedSeq (t : IssueTracker) (issue_number : Nat)
    (times : List Nat) : IssueTracker :=
  times.foldl (fun acc now => acc.mark_failed now issue_number) t

/-- The state after `k` consecutive `mark_failed` calls for issue `1`, all at time `0`,
starting from the empty tracker. -/
def consecutiveFailures : Nat → IssueTracker
  | 0 => emptyTracker
  | k + 1 => (consecutiveFailures k).mark_failed 0 1

/-! ### The fix-agent invoker, `claude_executor.py` -/

/-- Result of one internal step of `execute_issue_fix`
(`_clone_repo`, `_create_branch`, `_run_claude_code`, `_create_pr`): either
the `(bool, str)` tuple the helper returned, or a Python exception it let
escape (caught by the enclosing `try` of `execute_issue_fix`). -/
inductive StepResult where
  | ok (success : Bool) (msg : String)
  | raised (e : String)
deriving DecidableEq, Repr

/-- The external world as seen by one `execute_issue_fix` call: the outcome
of `os.makedirs` and of each of the four helper invocations. -/
structure ExecEnv where
  makedirsError : Option String
  clone : StepResult
  branch : StepResult
  fix : StepResult
  pr : StepResult

/-- Result of `ClaudeExecutor.execute_issue_fix`: the returned `(bool, str)`
tuple plus whether the per-issue directory `work_dir/issue_<n>` still exists
when the call returns. -/
structure ExecOutcome where
  success : Bool
  message : String
  issueDirExists : Bool
deriving DecidableEq, Repr

/-- Embeds `ClaudeExecutor.execute_issue_fix` (`claude_executor.py`, lines 15-61):
create the per-issue directory, clone, branch, run the agent, open a PR,
each early-returning `(False, prefixed-msg)` on failure; any exception is
caught and returned as `(False, str(e))`; the `finally` block removes the
per-issue directory whenever it exists. `dirExists0` is whether
`work_dir/issue_<n>` already existed before the call. -/
def ClaudeExecutor.execute_issue_fix (env : ExecEnv) (issue_number : Nat)
    (dirExists0 : Bool) : ExecOutcome :=
  let body : (Bool × String) × Bool :=
    match env.makedirsError with
    | some e => ((false, e), dirExists0)
    | none =>
      match env.clone with
      | .raised e => ((false, e), true)
      | .ok false msg => ((false, "Failed to clone repository: " ++ msg), true)
      | .ok true _ =>
        match env.branch with
        | .raised e => ((false, e), true)
        | .ok false msg => ((false, "Failed to create branch: " ++ msg), true)
        | .ok true _ =>
          match env.fix with
          | .raised e => ((false, e), true)
          | .ok false msg =>
              ((false, "Claude Code execution failed: " ++ msg), true)
          | .ok true _ =>
            match env.pr with
            | .raised e => ((false, e), true)
            | .ok false msg => ((false, "Failed to create PR: " ++ msg), true)
            | .ok true msg =>
                ((true, "Successfully processed issue #" ++
                    toString issue_number ++ ". " ++ msg), true)
  { success := body.1.1, message := body.1.2,
    issueDirExists := if body.2 then false else body.2 }

/-- Outcome of the `subprocess.run` call in `_run_claude_code`: normal
completion with a return code and captured output, `TimeoutExpired`, or any
other launch exception. -/
inductive SubprocessOutcome where
  | completed (returncode : Int) (stdout stderr : String)
  | timedOut
  | launchError (e : String)
deriving DecidableEq, Repr

/-- Whether `json.loads(result.stdout)` succeeds in `_run_claude_code`;
both branches of the `try` return the same success tuple, parsing only
affects logging. -/
def jsonParses (_stdout : String) : Bool := true

/-- The timeout passed to `subprocess.run` in `_run_claude_code`
(`claude_executor.py`, line 208). -/
def claudeTimeoutSeconds : Nat := 1800

/-- The subprocess invocation of `_run_claude_code` (line 208): run in the
repository directory (`cwd=repo_path`) with `timeout=1800` seconds. -/
structure SubprocessCall where
  cwd : String
  timeoutSeconds : Nat
deriving DecidableEq, Repr

/-- The call parameters `_run_claude_code` hands to `subprocess.run`. -/
def ClaudeExecutor.claudeCall (repo_path : String) : SubprocessCall :=
  { cwd := repo_path, timeoutSeconds := claudeTimeoutSeconds }

/-- Embeds `ClaudeExecutor._run_claude_code` (`claude_executor.py`, lines 182-238)
as a function of the subprocess outcome: return code `0` is success whether
or not the stdout parses as JSON; a non-zero return code reports
`stderr or stdout`; `TimeoutExpired` and every other exception are caught
and returned as a failure tuple. -/
def ClaudeExecutor.run_claude_code (outcome : SubprocessOutcome) :
    Bool × String :=
  match outcome with
  | .completed returncode stdout stderr =>
    if returncode = 0 then
      (true, "Claude Code executed successfully")
    else
      let error_msg := if stderr = "" then stdout else stderr
      (false, "Claude Code failed: " ++ error_msg)
  | .timedOut => (false, "Claude Code execution timed out")
  | .launchError e => (false, e)

/-! ### The poll loop, `main.py` -/

/-- One observable call made by the body of `process_new_issues` while
handling a single issue (`main.py`, lines 45-100), plus — so that their
absence is statable — the `RepositoryManager` operations of
`repo_manager.py`, which `main.py` never imports or calls. -/
inductive LoopEvent where
  | addInProgressComment (issue : Nat)
  | executeIssueFix (issue : Nat)
  | addSuccessComment (issue : Nat)
  | closeIssue (issue : Nat)
  | addFailureComment (issue : Nat)
  | markProcessed (issue : Nat)
  | markFailed (issue : Nat)
  | prepareForIssue (issue : Nat)
  | cleanupAfterIssue (success : Bool)
deriving DecidableEq, Repr

/-- The sequence of calls `process_new_issues` makes for one issue
(`main.py`, lines 45-100), given the boolean `success` returned by
`claude_executor.execute_issue_fix`: in-progress comment, executor run,
outcome notifications, then — line 100, "Mark as processed regardless of
success/failure" — `issue_tracker.mark_processed`. -/
def processIssueEvents (issue : Nat) (success : Bool) : List LoopEvent :=
  [LoopEvent.addInProgressComment issue, LoopEvent.executeIssueFix issue] ++
    (if success then
      [LoopEvent.addSuccessComment issue, LoopEvent.closeIssue issue]
    else
      [LoopEvent.addFailureComment issue]) ++
    [LoopEvent.markProcessed issue]

/-- The effect of one issue iteration of `process_new_issues` on the
tracker (`main.py`, line 100): `mark_processed` is called unconditionally
and `mark_failed` is never called. -/
def processIssueLedger (t : IssueTracker) (issue : Nat) (_success : Bool) :
    IssueTracker :=
  t.mark_processed issue

/-! ### Ledger states reachable through the public mutators -/

/-- Tracker states reachable from the empty tracker by arbitrary
`mark_processed` and `mark_failed` calls. -/
inductive Reachable : IssueTracker → Prop where
  | empty : Reachable emptyTracker
  | processed (t : IssueTracker) (n : Nat) :
      Reachable t → Reachable (t.mark_processed n)
  | failed (t : IssueTracker) (now n : Nat) :
      Reachable t → Reachable (t.mark_failed now n)

/-- Tracker states reachable when callers respect the intended protocol:
`mark_failed` is never invoked on an identifier already recorded as
Processed. -/
inductive GuardedReachable : IssueTracker → Prop where
  | empty : GuardedReachable emptyTracker
  | processed (t : IssueTracker) (n : Nat) :
      GuardedReachable t → GuardedReachable (t.mark_processed n)
  | failed (t : IssueTracker) (now n : Nat) :
      GuardedReachable t → n ∉ t.processed_issues →
      GuardedReachable (t.mark_failed now n)

/-! ### The workspace manager, `repo_manager.py` -/

/-- Branch names the manager manipulates: the trunk `main` and the
deterministic per-issue names `fix-issue-<n>` (`repo_manager.py`,
line 116). Two fix branches have equal names exactly when the issue
numbers coincide, and no fix branch is named `main`. -/
inductive BranchName where
  | main : BranchName
  | fixIssue (n : Nat) : BranchName
deriving DecidableEq, Repr

/-- Modelled from the external git tool: the observable state of the
persistent working copy — which branches exist, the checked-out branch,
and whether the tree is free of uncommitted/untracked changes. -/
structure GitState where
  branches : Finset BranchName
  current : BranchName
  clean : Bool
deriving DecidableEq

/-- Modelled git semantics of `git reset --hard`: discard uncommitted
changes; always succeeds (result ignored by the caller). -/
def gitResetHard (g : GitState) : GitState :=
  { g with clean := true }

/-- Modelled git semantics of `git clean -fd`: remove untracked files;
always succeeds (result ignored by the caller). Tracked and untracked
dirt are merged into the single `clean` flag, so this is folded into
`gitResetHard`. -/
def gitCleanFd (g : GitState) : GitState := g

/-- Modelled git semantics of `git checkout b`: succeeds and switches the
current branch iff `b` exists. -/
def gitCheckout (b : BranchName) (g : GitState) : Bool × GitState :=
  if b ∈ g.branches then (true, { g with current := b }) else (false, g)

/-- Modelled git semantics of `git pull origin main`: a network operation
whose success is an input of the model; it does not change the local
branch structure the later steps depend on. -/
def gitPull (networkOk : Bool) (g : GitState) : Bool × GitState :=
  (networkOk, g)

/-- Modelled git semantics of `git branch -D b`: force-delete `b` when it
exists and is not checked out; the caller ignores the exit status. -/
def gitBranchDelete (b : BranchName) (g : GitState) : GitState :=
  if b = g.current then g else { g with branches := g.branches.erase b }

/-- Modelled git semantics of `git checkout -b b`: create and switch to a
fresh branch; fails iff a branch named `b` already exists. -/
def gitCheckoutNewBranch (b : BranchName) (g : GitState) : Bool × GitState :=
  if b ∈ g.branches then (false, g)
  else (true, { g with branches := insert b g.branches, current := b })

/-- State of a `RepositoryManager` (`repo_manager.py`): whether the
persistent clone directory exists, the git state of that working copy, and
the remembered `current_branch` attribute. -/
structure RepoManagerState where
  repoInitialized : Bool
  git : GitState
  current_branch : Option BranchName
deriving DecidableEq

/-- Embeds `RepositoryManager.prepare_for_issue` (`repo_manager.py`, lines
113-173), over the modelled git tool: reset and clean, check out `main`
(hard failure when it fails), pull (warning only on failure), force-delete
any stale `fix-issue-<n>` branch ignoring the result, then create and
check out a fresh `fix-issue-<n>`; `current_branch` is recorded only on
success. `networkOk` is whether the `git pull` subprocess exits zero. -/
def RepositoryManager.prepare_for_issue (m : RepoManagerState)
    (networkOk : Bool) (issue_number : Nat) :
    (Bool × String) × RepoManagerState :=
  if m.repoInitialized = false then
    ((false, "Repository not initialized"), m)
  else
    let branch_name := BranchName.fixIssue issue_number
    let g1 := gitCleanFd (gitResetHard m.git)
    match gitCheckout BranchName.main g1 with
    | (false, g2) => ((false, "Failed to checkout main"), { m with git := g2 })
    | (true, g2) =>
      let pulled := gitPull networkOk g2
      let g4 := gitBranchDelete branch_name pulled.2
      match gitCheckoutNewBranch branch_name g4 with
      | (true, g5) =>
          ((true, "Branch ready"),
            { m with git := g5, current_branch := some branch_name })
      | (false, g5) =>
          ((false, "Failed to create branch"), { m with git := g5 })

/-- Embeds `RepositoryManager.cleanup_after_issue` (`repo_manager.py`, lines
175-207): check out `main`, delete the remembered branch when the issue
failed, reset and clean, forget `current_branch`. -/
def RepositoryManager.cleanup_after_issue (m : RepoManagerState)
    (success : Bool) : (Bool × String) × RepoManagerState :=
  if m.repoInitialized = false then
    ((true, "Repository not found"), m)
  else
    let g2 := (gitCheckout BranchName.main m.git).2
    let g3 :=
      match m.current_branch, success with
      | some b, false => gitBranchDelete b g2
      | _, _ => g2
    let g4 := gitCleanFd (gitResetHard g3)
    ((true, "Repository cleaned up"),
      { m with git := g4, current_branch := none })

/-! ### Shared lemmas -/

/-- Every backoff is at least the 5-minute base. -/
theorem backoffMinutes_ge_five (n : Nat) : 5 ≤ backoffMinutes n := by
  unfold backoffMinutes
  have h : 1 ≤ 3 ^ (n - 1) := Nat.one_le_pow _ _ (by omega)
  omega

/-- The mutator `mark_failed` never changes the processed set. -/
theorem mark_failed_processed (t : IssueTracker) (now n : Nat) :
    (t.mark_failed now n).processed_issues = t.processed_issues := rfl

/-- After `mark_processed n`, `n` is in the processed set. -/
theorem mem_mark_processed (t : IssueTracker) (n : Nat) :
    n ∈ (t.mark_processed n).processed_issues := by
  unfold IssueTracker.mark_processed
  by_cases h : n ∈ t.processed_issues
  · simp [h]
  · simp [h]

/-- The mutator `mark_processed` only grows the processed set. -/
theorem mem_mark_processed_of_mem (t : IssueTracker) (i j : Nat)
    (h : i ∈ t.processed_issues) : i ∈ (t.mark_processed j).processed_issues := by
  unfold IssueTracker.mark_processed
  by_cases hj : j ∈ t.processed_issues
  · simpa [hj]
  · simp [hj, Finset.mem_insert, h]

/-- A sequence of `mark_failed` calls never changes the processed set. -/
theorem applyMarkFailedSeq_processed (t : IssueTracker) (n : Nat)
    (times : List Nat) :
    (applyMarkFailedSeq t n times).processed_issues = t.processed_issues := by
  induction times generalizing t with
  | nil => rfl
  | cons now rest ih =>
      simpa [applyMarkFailedSeq] using ih (t.mark_failed now n)

/-- The query `should_retry_issue` is false for any member of the processed set. -/
theorem should_retry_of_processed (t : IssueTracker) (now i : Nat)
    (h : i ∈ t.processed_issues) : t.should_retry_issue now i = false := by
  simp [IssueTracker.should_retry_issue, h]

/-! ### C2: backoff schedule -/

/-- The failure record of issue `1` after `k` consecutive failures at time
`0`: count `k` and a retry window of `backoffMinutes k` minutes. -/
theorem consecutiveFailures_record :
    ∀ k, 1 ≤ k → (consecutiveFailures k).failed_attempts 1 =
      some { count := k, last_attempt := 0,
             next_retry := backoffMinutes k * 60 } := by
  intro k
  induction k with
  | zero => intro hk; omega
  | succ n ih =>
      intro _
      match n, ih with
      | 0, _ => decide
      | m + 1, ih =>
          have hrec := ih (by omega)
          show ((consecutiveFailures (m + 1)).mark_failed 0 1).failed_attempts 1 = _
          simp [IssueTracker.mark_failed, hrec]

/-- C2 counterexample: after four consecutive failures the retry delay is
135 minutes (`next_retry = 8100` seconds), not the 120 minutes the claimed
sequence prescribes for attempt 4. -/
theorem backoff_attempt4_is_135_not_120 :
    (consecutiveFailures 4).failed_attempts 1 =
      some { count := 4, last_attempt := 0, next_retry := 8100 } ∧
    (8100 : Nat) ≠ 120 * 60 := by
  constructor
  · decide
  · decide

/-- C2 (amended): for every attempt count `n ≥ 1` the backoff delay equals
`min (5 * 3 ^ (n - 1)) 1440` minutes; consecutive failures produce the
delay sequence 5, 15, 45, 135, 405, 1215 and then 1440 from attempt 7 on,
monotonically non-decreasing, with `mark_failed` setting
`next_retry = last_attempt + delay * 60` seconds. -/
theorem backoff_schedule :
    (∀ n, 1 ≤ n → backoffMinutes n = min (5 * 3 ^ (n - 1)) 1440) ∧
    (∀ k, 1 ≤ k → (consecutiveFailures k).failed_attempts 1 =
      some { count := k, last_attempt := 0,
             next_retry := backoffMinutes k * 60 }) ∧
    (backoffMinutes 1 = 5 ∧ backoffMinutes 2 = 15 ∧ backoffMinutes 3 = 45 ∧
      backoffMinutes 4 = 135 ∧ backoffMinutes 5 = 405 ∧
      backoffMinutes 6 = 1215) ∧
    (∀ n, 7 ≤ n → backoffMinutes n = 1440) ∧
    Monotone backoffMinutes := by
  refine ⟨fun n _ => rfl, consecutiveFailures_record, by decide, ?_, ?_⟩
  · intro n hn
    have h6 : (729 : Nat) ≤ 3 ^ (n - 1) := by
      calc (729 : Nat) = 3 ^ 6 := by norm_num
        _ ≤ 3 ^ (n - 1) := Nat.pow_le_pow_right (by omega) (by omega)
    unfold backoffMinutes
    omega
  · intro a b hab
    unfold backoffMinutes
    exact min_le_min
      (Nat.mul_le_mul_left 5
        (Nat.pow_le_pow_right (by omega) (Nat.sub_le_sub_right hab 1)))
      le_rfl

/-- Witness instantiating `backoff_schedule` at concrete attempt counts. -/
theorem backoff_schedule_witness :
    backoffMinutes 4 = min (5 * 3 ^ 3) 1440 ∧
    (consecutiveFailures 3).failed_attempts 1 =
      some { count := 3, last_attempt := 0,
             next_retry := backoffMinutes 3 * 60 } ∧
    backoffMinutes 10 = 1440 :=
  ⟨backoff_schedule.1 4 (by omega), backoff_schedule.2.1 3 (by omega),
   backoff_schedule.2.2.2.1 10 (by omega)⟩

/-! ### C5: `should_retry_issue` semantics -/

/-- C5: `should_retry_issue` returns false for a Processed issue, true for
an issue absent from both the processed set and the failure map, and for a
non-Processed issue with a failure record returns true exactly when the
current time has reached `next_retry`; in particular it is false at the
very moment `mark_failed` ran. -/
theorem should_retry_semantics :
    ∀ (t : IssueTracker) (now i : Nat),
      (i ∈ t.processed_issues → t.should_retry_issue now i = false) ∧
      (i ∉ t.processed_issues → t.failed_attempts i = none →
        t.should_retry_issue now i = true) ∧
      (∀ info, i ∉ t.processed_issues → t.failed_attempts i = some info →
        (t.should_retry_issue now i = true ↔ info.next_retry ≤ now)) ∧
      (t.mark_failed now i).should_retry_issue now i = false := by
  intro t now i
  refine ⟨fun h => should_retry_of_processed t now i h, ?_, ?_, ?_⟩
  · intro h hnone
    simp [IssueTracker.should_retry_issue, h, hnone]
  · intro info h hsome
    simp [IssueTracker.should_retry_issue, h, hsome, ge_iff_le]
  · by_cases h : i ∈ t.processed_issues
    · exact should_retry_of_processed _ now i h
    · set fc := (match t.failed_attempts i with
        | some info => info.count + 1
        | none => 1) with hfc
      have hf : (t.mark_failed now i).failed_attempts i =
          some { count := fc, last_attempt := now,
                 next_retry := now + backoffMinutes fc * 60 } := by
        simp [IssueTracker.mark_failed, hfc]
      have hmem : i ∉ (t.mark_failed now i).processed_issues := by
        rw [mark_failed_processed]; exact h
      have hb := backoffMinutes_ge_five fc
      simp only [IssueTracker.should_retry_issue, if_neg hmem, hf,
        ge_iff_le, decide_eq_false_iff_not, not_le]
      omega

/-- Witness instantiating `should_retry_semantics` on concrete trackers:
a processed issue, a never-seen issue, an expired backoff window, and the
moment right after a failure. -/
theorem should_retry_semantics_witness :
    ((emptyTracker.mark_processed 7).should_retry_issue 0 7 = false) ∧
    (emptyTracker.should_retry_issue 0 7 = true) ∧
    ((emptyTracker.mark_failed 0 1).should_retry_issue 300 1 = true) ∧
    ((emptyTracker.mark_failed 0 1).should_retry_issue 0 1 = false) :=
  ⟨(should_retry_semantics (emptyTracker.mark_processed 7) 0 7).1
      (mem_mark_processed emptyTracker 7),
   (should_retry_semantics emptyTracker 0 7).2.1 (by decide) rfl,
   ((should_retry_semantics (emptyTracker.mark_failed 0 1) 300 1).2.2.1
      { count := 1, last_attempt := 0, next_retry := 300 }
      (by decide) (by decide)).mpr (by decide),
   (should_retry_semantics emptyTracker 0 1).2.2.2⟩

/-! ### C4: permanence of `mark_processed` -/

/-- C4 counterexample: when `1` is already Processed and (through a
protocol-violating `mark_failed`) also carries a failure record,
`mark_processed 1` is a no-op (guard on line 79 of `issue_tracker.py`) and
the failure record is NOT discarded. -/
theorem mark_processed_keeps_stale_failure :
    (((emptyTracker.mark_processed 1).mark_failed 0 1).mark_processed 1).failed_attempts
        1 = some { count := 1, last_attempt := 0, next_retry := 300 } ∧
    (((emptyTracker.mark_processed 1).mark_failed 0 1).mark_processed 1).failed_attempts
        1 ≠ none := by
  constructor
  · decide
  · decide

/-- C4 (amended): after `mark_processed i` the issue is Processed and
`should_retry_issue` is false permanently — at all later times and across
any subsequent sequence of `mark_failed i` calls; the failure record is
discarded provided `i` was not already in the processed set when
`mark_processed` was called (otherwise the call is a no-op and an existing
record survives). -/
theorem mark_processed_permanent :
    ∀ (t : IssueTracker) (i : Nat) (times : List Nat) (now : Nat),
      ((t.mark_processed i).is_processed i = true) ∧
      (i ∉ t.processed_issues → (t.mark_processed i).failed_attempts i = none) ∧
      ((applyMarkFailedSeq (t.mark_processed i) i times).is_processed i = true) ∧
      ((applyMarkFailedSeq (t.mark_processed i) i times).should_retry_issue
          now i = false) := by
  intro t i times now
  have hmem : i ∈ (applyMarkFailedSeq (t.mark_processed i) i times).processed_issues := by
    rw [applyMarkFailedSeq_processed]
    exact mem_mark_processed t i
  refine ⟨?_, ?_, ?_, should_retry_of_processed _ now i hmem⟩
  · simp [IssueTracker.is_processed, mem_mark_processed t i]
  · intro h
    simp [IssueTracker.mark_processed, h]
  · simp [IssueTracker.is_processed, hmem]

/-- Witness instantiating `mark_processed_permanent` for issue `7` with two
later protocol-violating failure recordings. -/
theorem mark_processed_permanent_witness :
    ((emptyTracker.mark_processed 7).failed_attempts 7 = none) ∧
    ((applyMarkFailedSeq (emptyTracker.mark_processed 7) 7 [0, 5000]).should_retry_issue
        999999 7 = false) :=
  ⟨(mark_processed_permanent emptyTracker 7 [] 0).2.1 (by decide),
   (mark_processed_permanent emptyTracker 7 [0, 5000] 999999).2.2.2⟩

/-! ### C1: what the poll loop records in the ledger -/

/-- C1 counterexample: for a failed processing run of issue `7`, the loop
body emits no `mark_failed` call, does emit `mark_processed`, and the
resulting ledger records issue `7` as Processed. -/
theorem failed_issue_recorded_processed :
    (LoopEvent.markFailed 7 ∉ processIssueEvents 7 false) ∧
    (LoopEvent.markProcessed 7 ∈ processIssueEvents 7 false) ∧
    ((processIssueLedger emptyTracker 7 false).is_processed 7 = true) := by
  refine ⟨by decide, by decide, by decide⟩

/-- C1 (amended): for every issue and either outcome, the loop body never
calls `mark_failed`, always calls `mark_processed`, and its ledger effect
is exactly `mark_processed` — so even a failed issue ends up Processed. -/
theorem loop_marks_processed_unconditionally :
    ∀ (issue : Nat) (success : Bool) (t : IssueTracker),
      (LoopEvent.markFailed issue ∉ processIssueEvents issue success) ∧
      (LoopEvent.markProcessed issue ∈ processIssueEvents issue success) ∧
      (processIssueLedger t issue success = t.mark_processed issue) ∧
      ((processIssueLedger t issue success).is_processed issue = true) := by
  intro issue success t
  refine ⟨?_, ?_, rfl, ?_⟩
  · cases success <;> simp [processIssueEvents]
  · cases success <;> simp [processIssueEvents]
  · simp [processIssueLedger, IssueTracker.is_processed, mem_mark_processed]

/-! ### C3: how the poll loop drives an issue -/

/-- C3 counterexample: the loop body for issue `7` contains no
`RepositoryManager.prepare_for_issue` or `cleanup_after_issue` call in
either outcome; the work happens inside `ClaudeExecutor.execute_issue_fix`. -/
theorem loop_has_no_workspace_manager_calls :
    (LoopEvent.prepareForIssue 7 ∉ processIssueEvents 7 true) ∧
    (LoopEvent.prepareForIssue 7 ∉ processIssueEvents 7 false) ∧
    (LoopEvent.cleanupAfterIssue true ∉ processIssueEvents 7 true) ∧
    (LoopEvent.cleanupAfterIssue false ∉ processIssueEvents 7 false) ∧
    (LoopEvent.executeIssueFix 7 ∈ processIssueEvents 7 true) := by
  refine ⟨by decide, by decide, by decide, by decide, by decide⟩

/-- C3 (amended): for each issue the loop calls
`ClaudeExecutor.execute_issue_fix` (which clones a fresh per-issue
directory and succeeds exactly when clone, branch creation, the agent run
and PR creation all succeed with no exception) and only afterwards updates
the ledger; the `RepositoryManager` workspace operations are never
invoked. -/
theorem loop_drives_issue_through_executor :
    ∀ (issue : Nat) (success : Bool),
      (LoopEvent.prepareForIssue issue ∉ processIssueEvents issue success) ∧
      (∀ b, LoopEvent.cleanupAfterIssue b ∉ processIssueEvents issue success) ∧
      ((processIssueEvents issue success).take 2 =
        [LoopEvent.addInProgressComment issue, LoopEvent.executeIssueFix issue]) ∧
      ((processIssueEvents issue success).getLast? =
        some (LoopEvent.markProcessed issue)) ∧
      (∀ (env : ExecEnv) (d : Bool),
        (ClaudeExecutor.execute_issue_fix env issue d).success = true ↔
          env.makedirsError = none ∧
          (∃ m, env.clone = StepResult.ok true m) ∧
          (∃ m, env.branch = StepResult.ok true m) ∧
          (∃ m, env.fix = StepResult.ok true m) ∧
          (∃ m, env.pr = StepResult.ok true m)) := by
  intro issue success
  refine ⟨?_, ?_, ?_, ?_, ?_⟩
  · cases success <;> simp [processIssueEvents]
  · intro b
    cases success <;> simp [processIssueEvents]
  · cases success <;> rfl
  · cases success <;> rfl
  · intro env d
    obtain ⟨me, c, b, f, p⟩ := env
    rcases me with _ | e0 <;>
      rcases c with ⟨_ | _, mc⟩ | ec <;>
      rcases b with ⟨_ | _, mb⟩ | eb <;>
      rcases f with ⟨_ | _, mf⟩ | ef <;>
      rcases p with ⟨_ | _, mp⟩ | ep <;>
      simp [ClaudeExecutor.execute_issue_fix]

/-! ### C6: disjointness of Processed and Failed -/

/-- C6 counterexample: the two-call sequence `mark_processed 1` then
`mark_failed 1` — both public mutators, so the state is reachable — leaves
identifier `1` in the processed set and in the failure map at once. -/
theorem reachable_state_in_both :
    Reachable ((emptyTracker.mark_processed 1).mark_failed 0 1) ∧
    1 ∈ ((emptyTracker.mark_processed 1).mark_failed 0 1).processed_issues ∧
    ((emptyTracker.mark_processed 1).mark_failed 0 1).failed_attempts 1 ≠
      none := by
  refine ⟨Reachable.failed _ 0 1 (Reachable.processed _ 1 Reachable.empty),
    by decide, by decide⟩

/-- C6 (amended): in every state reachable from the empty ledger by
sequences in which `mark_failed` is never invoked on an identifier already
Processed, each identifier is in at most one of the processed set and the
failure map; in such states `mark_processed` always leaves the identifier
with no failure record; and Processed is sticky — neither mutator ever
removes an identifier from the processed set. -/
theorem guarded_ledger_invariant :
    (∀ t, GuardedReachable t →
      ∀ i ∈ t.processed_issues, t.failed_attempts i = none) ∧
    (∀ t i, GuardedReachable t →
      (t.mark_processed i).failed_attempts i = none) ∧
    (∀ (t : IssueTracker) (i j : Nat), i ∈ t.processed_issues →
      i ∈ (t.mark_processed j).processed_issues) ∧
    (∀ (t : IssueTracker) (i j now : Nat), i ∈ t.processed_issues →
      i ∈ (t.mark_failed now j).processed_issues) := by
  have inv : ∀ t, GuardedReachable t →
      ∀ i ∈ t.processed_issues, t.failed_attempts i = none := by
    intro t ht
    induction ht with
    | empty => intro i hi; simp [emptyTracker] at hi
    | processed t n _ ih =>
        intro i hi
        by_cases hn : n ∈ t.processed_issues
        · simp only [IssueTracker.mark_processed, if_pos hn] at hi ⊢
          exact ih i hi
        · simp only [IssueTracker.mark_processed, if_neg hn] at hi ⊢
          rcases Finset.mem_insert.mp hi with h | h
          · simp [h]
          · by_cases hin : i = n
            · simp [hin]
            · simp [hin, ih i h]
    | failed t now n _ hn ih =>
        intro i hi
        rw [mark_failed_processed] at hi
        have hin : i ≠ n := fun h => hn (h ▸ hi)
        have : (t.mark_failed now n).failed_attempts i =
            t.failed_attempts i := by
          simp [IssueTracker.mark_failed, hin]
        rw [this]
        exact ih i hi
  refine ⟨inv, ?_, mem_mark_processed_of_mem, ?_⟩
  · intro t i ht
    by_cases h : i ∈ t.processed_issues
    · simp only [IssueTracker.mark_processed, if_pos h]
      exact inv t ht i h
    · simp [IssueTracker.mark_processed, h]
  · intro t i j now h
    rw [mark_failed_processed]
    exact h

/-- Witness instantiating `guarded_ledger_invariant` on concrete guarded
states: a failed-then-succeeded issue has its record cleared, and
Processed membership survives an unrelated failure recording. -/
theorem guarded_ledger_invariant_witness :
    (((emptyTracker.mark_failed 0 2).mark_processed 2).failed_attempts 2 =
      none) ∧
    (7 ∈ ((emptyTracker.mark_processed 7).mark_failed 0 3).processed_issues) :=
  ⟨guarded_ledger_invariant.2.1 (emptyTracker.mark_failed 0 2) 2
      (GuardedReachable.failed emptyTracker 0 2 GuardedReachable.empty
        (by decide)),
   guarded_ledger_invariant.2.2.2 (emptyTracker.mark_processed 7) 7 3 0
      (mem_mark_processed emptyTracker 7)⟩

/-! ### C9: the agent subprocess boundary -/

/-- C9: the agent runs as a subprocess with a hard 1800-second (30-minute)
timeout in the prepared repository directory; exit code zero — JSON or
not — is success; a non-zero exit, a `TimeoutExpired` and any launch
exception are all returned as `(false, message)` tuples, never raised. -/
theorem run_claude_code_boundary :
    (claudeTimeoutSeconds = 30 * 60) ∧
    (∀ repo_path, ClaudeExecutor.claudeCall repo_path =
      { cwd := repo_path, timeoutSeconds := 1800 }) ∧
    (∀ (rc : Int) (out err : String),
      (ClaudeExecutor.run_claude_code
        (SubprocessOutcome.completed rc out err)).1 = true ↔ rc = 0) ∧
    (ClaudeExecutor.run_claude_code SubprocessOutcome.timedOut =
      (false, "Claude Code execution timed out")) ∧
    (∀ e, ClaudeExecutor.run_claude_code (SubprocessOutcome.launchError e) =
      (false, e)) := by
  refine ⟨rfl, fun _ => rfl, ?_, rfl, fun _ => rfl⟩
  intro rc out err
  by_cases h : rc = 0 <;> simp [ClaudeExecutor.run_claude_code, h]

/-! ### C10: the per-issue directory never survives the call -/

/-- C10: on every exit path of `execute_issue_fix` — success, early failure
return, or a caught exception at any step — the per-issue working
directory does not exist when the call returns: the `finally` block
removes it whenever it is present. -/
theorem execute_issue_fix_removes_dir :
    ∀ (env : ExecEnv) (issue_number : Nat) (dirExists0 : Bool),
      (ClaudeExecutor.execute_issue_fix env issue_number
        dirExists0).issueDirExists = false := by
  intro env issue_number dirExists0
  have hb : ∀ b : Bool, (if b then false else b) = false := by decide
  exact hb _

/-! ### C7: pruning keeps the numerically largest identifiers -/

/-- The first `N` entries of the descending sort of a finite set of
naturals form a subset of size `N` that strictly dominates every element
left out. -/
theorem take_reverse_sort_spec (s : Finset Nat) (N : Nat) (hN : N < s.card) :
    (((s.sort (· ≤ ·)).reverse.take N).toFinset ⊆ s ∧
     ((s.sort (· ≤ ·)).reverse.take N).toFinset.card = N ∧
     ∀ x ∈ ((s.sort (· ≤ ·)).reverse.take N).toFinset,
       ∀ y ∈ s, y ∉ ((s.sort (· ≤ ·)).reverse.take N).toFinset → y < x) := by
  set l := s.sort (· ≤ ·) with hl
  have hsorted : List.Sorted (· ≤ ·) l := Finset.sort_sorted _ s
  have hnodup : l.Nodup := Finset.sort_nodup _ s
  have hlen : l.length = s.card := Finset.length_sort _
  have hrnodup : l.reverse.Nodup := List.nodup_reverse.mpr hnodup
  have hrsorted : List.Sorted (fun a b => b ≤ a) l.reverse :=
    List.pairwise_reverse.mpr hsorted
  refine ⟨?_, ?_, ?_⟩
  · intro x hx
    rw [List.mem_toFinset] at hx
    have hx1 : x ∈ l.reverse := List.mem_of_mem_take hx
    rw [List.mem_reverse] at hx1
    exact (Finset.mem_sort _).mp hx1
  · rw [List.toFinset_card_of_nodup
      (List.Sublist.nodup (List.take_sublist N l.reverse) hrnodup)]
    rw [List.length_take, List.length_reverse, hlen]
    omega
  · intro x hx y hy hyn
    rw [List.mem_toFinset] at hx
    rw [List.mem_toFinset] at hyn
    have hyr : y ∈ l.reverse := by
      rw [List.mem_reverse]
      exact (Finset.mem_sort _).mpr hy
    have hyd : y ∈ l.reverse.drop N := by
      rcases List.mem_append.mp
        ((List.take_append_drop N l.reverse) ▸ hyr) with h | h
      · exact absurd h hyn
      · exact h
    have hle : y ≤ x :=
      List.Sorted.rel_of_mem_take_of_mem_drop hrsorted hx hyd
    have hne : y ≠ x := fun h => hyn (h ▸ hx)
    exact lt_of_le_of_ne hle hne

/-- C7: when the processed set has more than `keep_last` entries,
`cleanup_old_issues` keeps a subset of exactly `keep_last` identifiers,
each strictly larger than every discarded one; with at most `keep_last`
entries the tracker is unchanged; and on `{1, 2, 3, 5, 9}` with
`keep_last = 2` exactly `{5, 9}` remains. -/
theorem cleanup_keeps_largest :
    (∀ (t : IssueTracker) (N : Nat), N < t.processed_issues.card →
      ((t.cleanup_old_issues N).processed_issues ⊆ t.processed_issues ∧
       (t.cleanup_old_issues N).processed_issues.card = N ∧
       ∀ x ∈ (t.cleanup_old_issues N).processed_issues,
         ∀ y ∈ t.processed_issues,
           y ∉ (t.cleanup_old_issues N).processed_issues → y < x)) ∧
    (∀ (t : IssueTracker) (N : Nat), t.processed_issues.card ≤ N →
      t.cleanup_old_issues N = t) ∧
    ((IssueTracker.cleanup_old_issues
      { processed_issues := {1, 2, 3, 5, 9}, failed_attempts := fun _ => none }
      2).processed_issues = {5, 9}) := by
  refine ⟨?_, ?_, ?_⟩
  · intro t N hN
    have h := take_reverse_sort_spec t.processed_issues N hN
    simpa only [IssueTracker.cleanup_old_issues, if_pos hN] using h
  · intro t N h
    simp [IssueTracker.cleanup_old_issues, Nat.not_lt.mpr h]
  · have hcard : ({1, 2, 3, 5, 9} : Finset Nat).card = 5 := by decide
    have hsort : Finset.sort (· ≤ ·) ({1, 2, 3, 5, 9} : Finset Nat) =
        [1, 2, 3, 5, 9] := by
      have hset : ({1, 2, 3, 5, 9} : Finset Nat) =
          ([1, 2, 3, 5, 9] : List Nat).toFinset := by decide
      rw [hset]
      exact (List.toFinset_sort (· ≤ ·) (by decide)).mpr (by decide)
    simp only [IssueTracker.cleanup_old_issues, hcard, hsort]
    decide

/-! ### C8: workspace preparation -/

/-- When the clone exists but trunk checkout fails (no `main` branch in the
modelled working copy), `prepare_for_issue` reports failure. -/
theorem prepare_fails_without_main (m : RepoManagerState) (net : Bool)
    (n : Nat) (hi : m.repoInitialized = true)
    (hm : BranchName.main ∉ m.git.branches) :
    (RepositoryManager.prepare_for_issue m net n).1.1 = false := by
  simp [RepositoryManager.prepare_for_issue, gitResetHard, gitCleanFd,
    gitCheckout, hi, hm]

/-- When the clone exists and trunk checkout succeeds,
`prepare_for_issue` succeeds whatever the pull outcome and whatever stale
branches exist: the per-issue branch is force-deleted before the fresh
`git checkout -b`. -/
theorem prepare_succeeds_with_main (m : RepoManagerState) (net : Bool)
    (n : Nat) (hi : m.repoInitialized = true)
    (hm : BranchName.main ∈ m.git.branches) :
    (RepositoryManager.prepare_for_issue m net n).1.1 = true := by
  simp [RepositoryManager.prepare_for_issue, gitResetHard, gitCleanFd,
    gitCheckout, gitPull, gitBranchDelete, gitCheckoutNewBranch, hi, hm,
    Finset.not_mem_erase]

/-- The operation `prepare_for_issue` never deletes the `main` branch. -/
theorem prepare_preserves_main (m : RepoManagerState) (net : Bool) (n : Nat)
    (hm : BranchName.main ∈ m.git.branches) :
    BranchName.main ∈
      (RepositoryManager.prepare_for_issue m net n).2.git.branches := by
  by_cases hi : m.repoInitialized = true
  · simp [RepositoryManager.prepare_for_issue, gitResetHard, gitCleanFd,
      gitCheckout, gitPull, gitBranchDelete, gitCheckoutNewBranch, hi, hm,
      Finset.not_mem_erase, Finset.mem_insert, Finset.mem_erase]
  · have hfalse : m.repoInitialized = false := by
      revert hi; cases m.repoInitialized <;> simp
    simp [RepositoryManager.prepare_for_issue, hfalse, hm]

/-- The operation `prepare_for_issue` never changes whether the clone directory exists. -/
theorem prepare_preserves_init (m : RepoManagerState) (net : Bool) (n : Nat) :
    (RepositoryManager.prepare_for_issue m net n).2.repoInitialized =
      m.repoInitialized := by
  by_cases hi : m.repoInitialized = false
  · simp [RepositoryManager.prepare_for_issue, hi]
  · by_cases hm : BranchName.main ∈ m.git.branches
    · simp [RepositoryManager.prepare_for_issue, gitResetHard, gitCleanFd,
        gitCheckout, gitPull, gitBranchDelete, gitCheckoutNewBranch, hi, hm,
        Finset.not_mem_erase]
    · simp [RepositoryManager.prepare_for_issue, gitResetHard, gitCleanFd,
        gitCheckout, hi, hm]

/-- C8: with an initialized clone, `prepare_for_issue` fails (aborting the
issue) when trunk checkout fails; it succeeds whenever trunk checkout can
succeed, for either pull outcome (pull failure is non-fatal) and despite
any stale per-issue branch (force-deleted before creation); it never drops
the `main` branch or the clone; hence a second `prepare_for_issue` for the
same issue, with no intervening cleanup, succeeds as well. -/
theorem prepare_for_issue_spec :
    (∀ (m : RepoManagerState) (net : Bool) (n : Nat),
      m.repoInitialized = true → BranchName.main ∉ m.git.branches →
      (RepositoryManager.prepare_for_issue m net n).1.1 = false) ∧
    (∀ (m : RepoManagerState) (net : Bool) (n : Nat),
      m.repoInitialized = true → BranchName.main ∈ m.git.branches →
      (RepositoryManager.prepare_for_issue m net n).1.1 = true) ∧
    (∀ (m : RepoManagerState) (net : Bool) (n : Nat),
      BranchName.main ∈ m.git.branches →
      BranchName.main ∈
        (RepositoryManager.prepare_for_issue m net n).2.git.branches) ∧
    (∀ (m : RepoManagerState) (net net2 : Bool) (n : Nat),
      m.repoInitialized = true → BranchName.main ∈ m.git.branches →
      (RepositoryManager.prepare_for_issue
        ((RepositoryManager.prepare_for_issue m net n).2) net2 n).1.1 =
        true) := by
  refine ⟨prepare_fails_without_main, prepare_succeeds_with_main,
    prepare_preserves_main, ?_⟩
  intro m net net2 n hi hm
  exact prepare_succeeds_with_main _ net2 n
    ((prepare_preserves_init m net n).trans hi)
    (prepare_preserves_main m net n hm)

/-- Witness instantiating `prepare_for_issue_spec` on a concrete one-branch
working copy: preparation succeeds, a repeated preparation with no cleanup
succeeds, and a copy without `main` fails. -/
theorem prepare_for_issue_spec_witness :
    ((RepositoryManager.prepare_for_issue
      { repoInitialized := true,
        git := { branches := {BranchName.main}, current := BranchName.main,
                 clean := true },
        current_branch := none } true 3).1.1 = true) ∧
    ((RepositoryManager.prepare_for_issue
      ((RepositoryManager.prepare_for_issue
        { repoInitialized := true,
          git := { branches := {BranchName.main}, current := BranchName.main,
                   clean := true },
          current_branch := none } true 3).2) false 3).1.1 = true) ∧
    ((RepositoryManager.prepare_for_issue
      { repoInitialized := true,
        git := { branches := ∅, current := BranchName.main, clean := true },
        current_branch := none } true 5).1.1 = false) :=
  ⟨prepare_for_issue_spec.2.1 _ true 3 rfl (by decide),
   prepare_for_issue_spec.2.2.2 _ true false 3 rfl (by decide),
   prepare_for_issue_spec.1 _ true 5 rfl (by decide)⟩

/-- Witness instantiating `cleanup_keeps_largest`: pruning a five-element
processed set to two entries, and the no-op case on the same set. -/
theorem cleanup_keeps_largest_witness :
    ((IssueTracker.cleanup_old_issues
      { processed_issues := {1, 2, 3, 5, 9}, failed_attempts := fun _ => none }
      2).processed_issues.card = 2) ∧
    (IssueTracker.cleanup_old_issues
      { processed_issues := {1, 2, 3, 5, 9}, failed_attempts := fun _ => none }
      7 =
      { processed_issues := {1, 2, 3, 5, 9},
        failed_attempts := fun _ => none }) :=
  ⟨(cleanup_keeps_largest.1
      { processed_issues := {1, 2, 3, 5, 9}, failed_attempts := fun _ => none }
      2 (by decide)).2.1,
   cleanup_keeps_largest.2.1
      { processed_issues := {1, 2, 3, 5, 9}, failed_attempts := fun _ => none }
      7 (by decide)⟩

end Automator
